import Mathlib

/-!
Shallow embedding of the Bonk account-decoding core
(src/streaming/event_parser/protocols/bonk/types.rs) of tuqc/solana-streamer.

Byte buffers are modelled as List Nat (each entry one byte).  The Borsh
deserialization primitive used by the source (borsh::from_slice together with
the derived BorshDeserialize instances) is embedded as a byte-stream reader:
a reader consumes a prefix of the byte list and returns the decoded value with
the remaining bytes, or fails.  Per the Borsh specification:
  - fixed-width unsigned integers are little-endian;
  - fixed-size arrays are element-by-element with no length prefix;
  - a Vec is a little-endian u32 element count followed by the elements;
  - an enum is a one-byte discriminant (variant index, or the explicit
    discriminant when the use_discriminant attribute is set) followed by the
    payload, failing on any byte that is not a defined discriminant;
  - from_slice fails unless the value consumes the entire input slice.
-/

namespace Bonk

/-- A Borsh reader: consumes a prefix of the byte list, returning the decoded
value and the remaining bytes, or failing. -/
def Reader (α : Type) : Type := List Nat → Option (α × List Nat)

/-- Reader that consumes nothing and returns a fixed value. -/
def pureR {α : Type} (a : α) : Reader α := fun bs => some (a, bs)

/-- Reader that always fails (an undefined enum discriminant was seen). -/
def failR {α : Type} : Reader α := fun _ => none

/-- Sequencing of readers: run the first, feed the rest of the bytes to the
continuation. -/
def bindR {α β : Type} (d : Reader α) (f : α → Reader β) : Reader β :=
  fun bs =>
    match d bs with
    | some (a, rest) => f a rest
    | none => none

/-- Read exactly n raw bytes (Borsh fixed-size byte array / Pubkey). -/
def readBytes (n : Nat) : Reader (List Nat) :=
  fun bs => if n ≤ bs.length then some (bs.take n, bs.drop n) else none

/-- Little-endian value of a byte list. -/
def leNat (l : List Nat) : Nat := l.foldr (fun b acc => b + 256 * acc) 0

/-- Borsh little-endian fixed-width unsigned integer: u8, u16, u32, u64 via
n = 1, 2, 4, 8. -/
def readUInt (n : Nat) : Reader Nat :=
  fun bs =>
    match readBytes n bs with
    | some (chunk, rest) => some (leNat chunk, rest)
    | none => none

/-- Borsh fixed-size u64 array: k little-endian u64 values in order. -/
def readU64List : Nat → Reader (List Nat)
  | 0 => pureR []
  | Nat.succ k =>
      bindR (readUInt 8) fun x =>
      bindR (readU64List k) fun xs =>
      pureR (x :: xs)

/-- Read a fixed number of values with the given element reader (the element
part of a Borsh Vec). -/
def readMany {α : Type} : Nat → Reader α → Reader (List α)
  | 0, _ => pureR []
  | Nat.succ k, d =>
      bindR d fun x =>
      bindR (readMany k d) fun xs =>
      pureR (x :: xs)

/-- Borsh Vec: a little-endian u32 element count read from the wire, followed
by that many elements. -/
def readVec {α : Type} (d : Reader α) : Reader (List α) :=
  bindR (readUInt 4) fun n => readMany n d

/-- borsh::from_slice: run the deserializer and require that every byte of the
slice is consumed; otherwise the whole decode fails. -/
def fromSlice {α : Type} (d : Reader α) (bs : List Nat) : Option α :=
  match d bs with
  | some (a, []) => some a
  | _ => none

/-! ## Record kinds (the Layout Registry), translated from the source -/

/-- enum TradeDirection { Buy, Sell } with derived BorshDeserialize
(discriminants 0 and 1 by variant order). -/
inductive TradeDirection : Type
  | Buy
  | Sell
deriving DecidableEq

/-- enum PoolStatus { Fund, Migrate, Trade } with derived BorshDeserialize
(discriminants 0, 1 and 2 by variant order). -/
inductive PoolStatus : Type
  | Fund
  | Migrate
  | Trade
deriving DecidableEq

/-- enum AmmCreatorFeeOn { QuoteToken = 0, BothToken = 1 } with
use_discriminant = true. -/
inductive AmmCreatorFeeOn : Type
  | QuoteToken
  | BothToken
deriving DecidableEq

def tradeDirectionDeser : Reader TradeDirection :=
  bindR (readUInt 1) fun tag =>
    if tag = 0 then pureR TradeDirection.Buy
    else if tag = 1 then pureR TradeDirection.Sell
    else failR

def poolStatusDeser : Reader PoolStatus :=
  bindR (readUInt 1) fun tag =>
    if tag = 0 then pureR PoolStatus.Fund
    else if tag = 1 then pureR PoolStatus.Migrate
    else if tag = 2 then pureR PoolStatus.Trade
    else failR

def ammCreatorFeeOnDeser : Reader AmmCreatorFeeOn :=
  bindR (readUInt 1) fun tag =>
    if tag = 0 then pureR AmmCreatorFeeOn.QuoteToken
    else if tag = 1 then pureR AmmCreatorFeeOn.BothToken
    else failR

/-- struct VestingSchedule: five u64 fields. -/
structure VestingSchedule where
  total_locked_amount : Nat
  cliff_period : Nat
  unlock_period : Nat
  start_time : Nat
  allocated_share_amount : Nat
deriving DecidableEq

def vestingScheduleDeser : Reader VestingSchedule :=
  bindR (readUInt 8) fun total_locked_amount =>
  bindR (readUInt 8) fun cliff_period =>
  bindR (readUInt 8) fun unlock_period =>
  bindR (readUInt 8) fun start_time =>
  bindR (readUInt 8) fun allocated_share_amount =>
  pureR { total_locked_amount := total_locked_amount, cliff_period := cliff_period,
          unlock_period := unlock_period, start_time := start_time,
          allocated_share_amount := allocated_share_amount }

/-- struct PoolState, field for field from the source.  Pubkey fields are
32-byte arrays; status is a plain u8 in the source (not a PoolStatus). -/
structure PoolState where
  epoch : Nat
  auth_bump : Nat
  status : Nat
  base_decimals : Nat
  quote_decimals : Nat
  migrate_type : Nat
  supply : Nat
  total_base_sell : Nat
  virtual_base : Nat
  virtual_quote : Nat
  real_base : Nat
  real_quote : Nat
  total_quote_fund_raising : Nat
  quote_protocol_fee : Nat
  platform_fee : Nat
  migrate_fee : Nat
  vesting_schedule : VestingSchedule
  global_config : List Nat
  platform_config : List Nat
  base_mint : List Nat
  quote_mint : List Nat
  base_vault : List Nat
  quote_vault : List Nat
  creator : List Nat
  token_program_flag : Nat
  amm_creator_fee_on : AmmCreatorFeeOn
  platform_vesting_share : Nat
  padding : List Nat
deriving DecidableEq

/-- Derived BorshDeserialize for PoolState: the fields in declaration order. -/
def poolStateDeser : Reader PoolState :=
  bindR (readUInt 8) fun epoch =>
  bindR (readUInt 1) fun auth_bump =>
  bindR (readUInt 1) fun status =>
  bindR (readUInt 1) fun base_decimals =>
  bindR (readUInt 1) fun quote_decimals =>
  bindR (readUInt 1) fun migrate_type =>
  bindR (readUInt 8) fun supply =>
  bindR (readUInt 8) fun total_base_sell =>
  bindR (readUInt 8) fun virtual_base =>
  bindR (readUInt 8) fun virtual_quote =>
  bindR (readUInt 8) fun real_base =>
  bindR (readUInt 8) fun real_quote =>
  bindR (readUInt 8) fun total_quote_fund_raising =>
  bindR (readUInt 8) fun quote_protocol_fee =>
  bindR (readUInt 8) fun platform_fee =>
  bindR (readUInt 8) fun migrate_fee =>
  bindR vestingScheduleDeser fun vesting_schedule =>
  bindR (readBytes 32) fun global_config =>
  bindR (readBytes 32) fun platform_config =>
  bindR (readBytes 32) fun base_mint =>
  bindR (readBytes 32) fun quote_mint =>
  bindR (readBytes 32) fun base_vault =>
  bindR (readBytes 32) fun quote_vault =>
  bindR (readBytes 32) fun creator =>
  bindR (readUInt 1) fun token_program_flag =>
  bindR ammCreatorFeeOnDeser fun amm_creator_fee_on =>
  bindR (readUInt 8) fun platform_vesting_share =>
  bindR (readBytes 54) fun padding =>
  pureR { epoch := epoch, auth_bump := auth_bump, status := status,
          base_decimals := base_decimals, quote_decimals := quote_decimals,
          migrate_type := migrate_type, supply := supply,
          total_base_sell := total_base_sell, virtual_base := virtual_base,
          virtual_quote := virtual_quote, real_base := real_base,
          real_quote := real_quote,
          total_quote_fund_raising := total_quote_fund_raising,
          quote_protocol_fee := quote_protocol_fee, platform_fee := platform_fee,
          migrate_fee := migrate_fee, vesting_schedule := vesting_schedule,
          global_config := global_config, platform_config := platform_config,
          base_mint := base_mint, quote_mint := quote_mint,
          base_vault := base_vault, quote_vault := quote_vault,
          creator := creator, token_program_flag := token_program_flag,
          amm_creator_fee_on := amm_creator_fee_on,
          platform_vesting_share := platform_vesting_share, padding := padding }

/-- The size constant, with the exact arithmetic expression of the source. -/
def POOL_STATE_SIZE : Nat := 8 + 1 * 5 + 8 * 10 + 32 * 7 + 8 * 8 + 8 * 5 + 1 + 1 + 8 + 54

/-- pub fn pool_state_decode(data: &[u8]) -> Option<PoolState> -/
def pool_state_decode (data : List Nat) : Option PoolState :=
  if data.length < POOL_STATE_SIZE then none
  else fromSlice poolStateDeser (data.take POOL_STATE_SIZE)

/-- struct GlobalConfig, field for field from the source. -/
structure GlobalConfig where
  epoch : Nat
  curve_type : Nat
  index : Nat
  migrate_fee : Nat
  trade_fee_rate : Nat
  max_share_fee_rate : Nat
  min_base_supply : Nat
  max_lock_rate : Nat
  min_base_sell_rate : Nat
  min_base_migrate_rate : Nat
  min_quote_fund_raising : Nat
  quote_mint : List Nat
  protocol_fee_owner : List Nat
  migrate_fee_owner : List Nat
  migrate_to_amm_wallet : List Nat
  migrate_to_cpswap_wallet : List Nat
  padding : List Nat
deriving DecidableEq

/-- Derived BorshDeserialize for GlobalConfig: the fields in declaration
order (epoch u64, curve_type u8, index u16, eight u64 rates, five Pubkeys,
padding of sixteen u64). -/
def globalConfigDeser : Reader GlobalConfig :=
  bindR (readUInt 8) fun epoch =>
  bindR (readUInt 1) fun curve_type =>
  bindR (readUInt 2) fun index =>
  bindR (readUInt 8) fun migrate_fee =>
  bindR (readUInt 8) fun trade_fee_rate =>
  bindR (readUInt 8) fun max_share_fee_rate =>
  bindR (readUInt 8) fun min_base_supply =>
  bindR (readUInt 8) fun max_lock_rate =>
  bindR (readUInt 8) fun min_base_sell_rate =>
  bindR (readUInt 8) fun min_base_migrate_rate =>
  bindR (readUInt 8) fun min_quote_fund_raising =>
  bindR (readBytes 32) fun quote_mint =>
  bindR (readBytes 32) fun protocol_fee_owner =>
  bindR (readBytes 32) fun migrate_fee_owner =>
  bindR (readBytes 32) fun migrate_to_amm_wallet =>
  bindR (readBytes 32) fun migrate_to_cpswap_wallet =>
  bindR (readU64List 16) fun padding =>
  pureR { epoch := epoch, curve_type := curve_type, index := index,
          migrate_fee := migrate_fee, trade_fee_rate := trade_fee_rate,
          max_share_fee_rate := max_share_fee_rate,
          min_base_supply := min_base_supply, max_lock_rate := max_lock_rate,
          min_base_sell_rate := min_base_sell_rate,
          min_base_migrate_rate := min_base_migrate_rate,
          min_quote_fund_raising := min_quote_fund_raising,
          quote_mint := quote_mint, protocol_fee_owner := protocol_fee_owner,
          migrate_fee_owner := migrate_fee_owner,
          migrate_to_amm_wallet := migrate_to_amm_wallet,
          migrate_to_cpswap_wallet := migrate_to_cpswap_wallet,
          padding := padding }

/-- The size constant, with the exact arithmetic expression of the source. -/
def GLOBAL_CONFIG_SIZE : Nat := 8 + 1 + 2 + 8 * 8 + 32 * 5 + 8 * 16

/-- pub fn global_config_decode(data: &[u8]) -> Option<GlobalConfig> -/
def global_config_decode (data : List Nat) : Option GlobalConfig :=
  if data.length < GLOBAL_CONFIG_SIZE then none
  else fromSlice globalConfigDeser (data.take GLOBAL_CONFIG_SIZE)

/-- struct BondingCurveParam: two u8 fields then six u64 fields. -/
structure BondingCurveParam where
  migrate_type : Nat
  migrate_cpmm_fee_on : Nat
  supply : Nat
  total_base_sell : Nat
  total_quote_fund_raising : Nat
  total_locked_amount : Nat
  cliff_period : Nat
  unlock_period : Nat
deriving DecidableEq

def bondingCurveParamDeser : Reader BondingCurveParam :=
  bindR (readUInt 1) fun migrate_type =>
  bindR (readUInt 1) fun migrate_cpmm_fee_on =>
  bindR (readUInt 8) fun supply =>
  bindR (readUInt 8) fun total_base_sell =>
  bindR (readUInt 8) fun total_quote_fund_raising =>
  bindR (readUInt 8) fun total_locked_amount =>
  bindR (readUInt 8) fun cliff_period =>
  bindR (readUInt 8) fun unlock_period =>
  pureR { migrate_type := migrate_type, migrate_cpmm_fee_on := migrate_cpmm_fee_on,
          supply := supply, total_base_sell := total_base_sell,
          total_quote_fund_raising := total_quote_fund_raising,
          total_locked_amount := total_locked_amount,
          cliff_period := cliff_period, unlock_period := unlock_period }

/-- struct PlatformCurveParam: u64 epoch, u8 index, Pubkey, an embedded
BondingCurveParam and a padding of fifty u64. -/
structure PlatformCurveParam where
  epoch : Nat
  index : Nat
  global_config : List Nat
  bonding_curve_param : BondingCurveParam
  padding : List Nat
deriving DecidableEq

def platformCurveParamDeser : Reader PlatformCurveParam :=
  bindR (readUInt 8) fun epoch =>
  bindR (readUInt 1) fun index =>
  bindR (readBytes 32) fun global_config =>
  bindR bondingCurveParamDeser fun bonding_curve_param =>
  bindR (readU64List 50) fun padding =>
  pureR { epoch := epoch, index := index, global_config := global_config,
          bonding_curve_param := bonding_curve_param, padding := padding }

/-- struct PlatformConfig, field for field from the source; the final field
curve_params is a Vec of PlatformCurveParam. -/
structure PlatformConfig where
  epoch : Nat
  platform_fee_wallet : List Nat
  platform_nft_wallet : List Nat
  platform_scale : Nat
  creator_scale : Nat
  burn_scale : Nat
  fee_rate : Nat
  name : List Nat
  web : List Nat
  img : List Nat
  cpswap_config : List Nat
  creator_fee_rate : Nat
  transfer_fee_extension_auth : List Nat
  platform_vesting_wallet : List Nat
  platform_vesting_scale : Nat
  platform_cp_creator : List Nat
  padding : List Nat
  curve_params : List PlatformCurveParam
deriving DecidableEq

/-- Derived BorshDeserialize for PlatformConfig: the fields in declaration
order, ending with the length-prefixed Vec of curve params. -/
def platformConfigDeser : Reader PlatformConfig :=
  bindR (readUInt 8) fun epoch =>
  bindR (readBytes 32) fun platform_fee_wallet =>
  bindR (readBytes 32) fun platform_nft_wallet =>
  bindR (readUInt 8) fun platform_scale =>
  bindR (readUInt 8) fun creator_scale =>
  bindR (readUInt 8) fun burn_scale =>
  bindR (readUInt 8) fun fee_rate =>
  bindR (readBytes 64) fun name =>
  bindR (readBytes 256) fun web =>
  bindR (readBytes 256) fun img =>
  bindR (readBytes 32) fun cpswap_config =>
  bindR (readUInt 8) fun creator_fee_rate =>
  bindR (readBytes 32) fun transfer_fee_extension_auth =>
  bindR (readBytes 32) fun platform_vesting_wallet =>
  bindR (readUInt 8) fun platform_vesting_scale =>
  bindR (readBytes 32) fun platform_cp_creator =>
  bindR (readBytes 108) fun padding =>
  bindR (readVec platformCurveParamDeser) fun curve_params =>
  pureR { epoch := epoch, platform_fee_wallet := platform_fee_wallet,
          platform_nft_wallet := platform_nft_wallet,
          platform_scale := platform_scale, creator_scale := creator_scale,
          burn_scale := burn_scale, fee_rate := fee_rate, name := name,
          web := web, img := img, cpswap_config := cpswap_config,
          creator_fee_rate := creator_fee_rate,
          transfer_fee_extension_auth := transfer_fee_extension_auth,
          platform_vesting_wallet := platform_vesting_wallet,
          platform_vesting_scale := platform_vesting_scale,
          platform_cp_creator := platform_cp_creator, padding := padding,
          curve_params := curve_params }

/-- The size constant, with the exact arithmetic expression of the source. -/
def PLATFORM_CONFIG_SIZE : Nat :=
  8 + 32 * 2 + 8 * 4 + 64 + 256 + 256 + 32 + 8 + 32 + 32 + 8 + 32 + 108

/-- pub fn platform_config_decode(data: &[u8]) -> Option<PlatformConfig> -/
def platform_config_decode (data : List Nat) : Option PlatformConfig :=
  if data.length < PLATFORM_CONFIG_SIZE then none
  else fromSlice platformConfigDeser (data.take PLATFORM_CONFIG_SIZE)

/-! ## Event lifters and their environment -/

/-- Modelled from the spec: the AccountPretty snapshot type is defined outside
the visible source; per the spec the core reads exactly these fields of it
(pubkey, executable, owner, lamports, rent_epoch and the raw data payload). -/
structure AccountPretty where
  pubkey : List Nat
  executable : Bool
  lamports : Nat
  owner : List Nat
  rent_epoch : Nat
  data : List Nat
deriving DecidableEq

/-- Modelled from the spec: the outer event-type enumeration is defined
outside the visible source; the core stamps one of three fixed enumerants,
and the enumeration has further members used by other protocols. -/
inductive EventType : Type
  | AccountBonkPoolState
  | AccountBonkGlobalConfig
  | AccountBonkPlatformConfig
  | OtherEventKind (code : Nat)
deriving DecidableEq

/-- Modelled from the spec: EventMetadata is defined outside the visible
source; it carries the event-type tag plus whatever correlation fields the
outer system defines, summarized here as one opaque field. -/
structure EventMetadata where
  event_type : EventType
  correlation : Nat
deriving DecidableEq

/-- Event payload constructed by pool_state_parser in the source. -/
structure BonkPoolStateAccountEvent where
  metadata : EventMetadata
  pubkey : List Nat
  executable : Bool
  lamports : Nat
  owner : List Nat
  rent_epoch : Nat
  pool_state : PoolState
deriving DecidableEq

/-- Event payload constructed by global_config_parser in the source. -/
structure BonkGlobalConfigAccountEvent where
  metadata : EventMetadata
  pubkey : List Nat
  executable : Bool
  lamports : Nat
  owner : List Nat
  rent_epoch : Nat
  global_config : GlobalConfig
deriving DecidableEq

/-- Event payload constructed by platform_config_parser in the source. -/
structure BonkPlatformConfigAccountEvent where
  metadata : EventMetadata
  pubkey : List Nat
  executable : Bool
  lamports : Nat
  owner : List Nat
  rent_epoch : Nat
  platform_config : PlatformConfig
deriving DecidableEq

/-- Modelled from the spec: the discriminated union of decoded-record events;
the core contributes these three variants. -/
inductive DexEvent : Type
  | BonkPoolStateAccountEvent (e : BonkPoolStateAccountEvent)
  | BonkGlobalConfigAccountEvent (e : BonkGlobalConfigAccountEvent)
  | BonkPlatformConfigAccountEvent (e : BonkPlatformConfigAccountEvent)
deriving DecidableEq

/-- pub fn pool_state_parser(account, mut metadata) -> Option<DexEvent>.
The name avoids a snake_case suffix; it embeds pool_state_parser. -/
def poolStateParser (account : AccountPretty) (metadata : EventMetadata) :
    Option DexEvent :=
  let md : EventMetadata := { metadata with event_type := EventType.AccountBonkPoolState }
  if account.data.length < POOL_STATE_SIZE + 8 then none
  else
    match pool_state_decode ((account.data.drop 8).take POOL_STATE_SIZE) with
    | some pool_state =>
        some (DexEvent.BonkPoolStateAccountEvent
          { metadata := md, pubkey := account.pubkey,
            executable := account.executable, lamports := account.lamports,
            owner := account.owner, rent_epoch := account.rent_epoch,
            pool_state := pool_state })
    | none => none

/-- pub fn global_config_parser(account, mut metadata) -> Option<DexEvent>.
The name avoids a snake_case suffix; it embeds global_config_parser. -/
def globalConfigParser (account : AccountPretty) (metadata : EventMetadata) :
    Option DexEvent :=
  let md : EventMetadata := { metadata with event_type := EventType.AccountBonkGlobalConfig }
  if account.data.length < GLOBAL_CONFIG_SIZE + 8 then none
  else
    match global_config_decode ((account.data.drop 8).take GLOBAL_CONFIG_SIZE) with
    | some global_config =>
        some (DexEvent.BonkGlobalConfigAccountEvent
          { metadata := md, pubkey := account.pubkey,
            executable := account.executable, lamports := account.lamports,
            owner := account.owner, rent_epoch := account.rent_epoch,
            global_config := global_config })
    | none => none

/-- pub fn platform_config_parser(account, mut metadata) -> Option<DexEvent>.
The name avoids a snake_case suffix; it embeds platform_config_parser. -/
def platformConfigParser (account : AccountPretty) (metadata : EventMetadata) :
    Option DexEvent :=
  let md : EventMetadata := { metadata with event_type := EventType.AccountBonkPlatformConfig }
  if account.data.length < PLATFORM_CONFIG_SIZE + 8 then none
  else
    match platform_config_decode ((account.data.drop 8).take PLATFORM_CONFIG_SIZE) with
    | some platform_config =>
        some (DexEvent.BonkPlatformConfigAccountEvent
          { metadata := md, pubkey := account.pubkey,
            executable := account.executable, lamports := account.lamports,
            owner := account.owner, rent_epoch := account.rent_epoch,
            platform_config := platform_config })
    | none => none

/-! ## Reader laws: exact consumption and totality -/

/-- The reader consumes exactly k bytes whenever it succeeds. -/
def Consumes {α : Type} (d : Reader α) (k : Nat) : Prop :=
  ∀ bs a rest, d bs = some (a, rest) → bs.length = k + rest.length

/-- The reader consumes a byte count determined by the returned value. -/
def ConsumesD {α : Type} (d : Reader α) (k : α → Nat) : Prop :=
  ∀ bs a rest, d bs = some (a, rest) → bs.length = k a + rest.length

/-- On any input with at least k bytes the reader succeeds, consuming
exactly k. -/
def TotalOn {α : Type} (d : Reader α) (k : Nat) : Prop :=
  ∀ bs, k ≤ bs.length → ∃ a, d bs = some (a, bs.drop k)

theorem consumes_eq {α : Type} {d : Reader α} {k m : Nat}
    (h : Consumes d k) (e : k = m) : Consumes d m := e ▸ h

theorem totalOn_eq {α : Type} {d : Reader α} {k m : Nat}
    (h : TotalOn d k) (e : k = m) : TotalOn d m := e ▸ h

theorem consumesD_eq {α : Type} {d : Reader α} {k m : α → Nat}
    (h : ConsumesD d k) (e : ∀ a, k a = m a) : ConsumesD d m := by
  intro bs a rest hs
  rw [← e a]
  exact h bs a rest hs

theorem consumes_pureR {α : Type} (a : α) : Consumes (pureR a) 0 := by
  intro bs b rest h
  simp only [pureR, Option.some.injEq, Prod.mk.injEq] at h
  obtain ⟨h1, h2⟩ := h
  subst h2
  omega

theorem consumes_failR {α : Type} (k : Nat) : Consumes (failR (α := α)) k := by
  intro bs a rest h
  simp [failR] at h

theorem consumes_bindR {α β : Type} {d : Reader α} {f : α → Reader β} {k m : Nat}
    (hd : Consumes d k) (hf : ∀ a, Consumes (f a) m) :
    Consumes (bindR d f) (k + m) := by
  intro bs b rest h
  unfold bindR at h
  cases hda : d bs with
  | none => rw [hda] at h; simp at h
  | some p =>
    obtain ⟨a, mid⟩ := p
    rw [hda] at h
    have h1 := hd bs a mid hda
    have h2 := hf a mid b rest h
    omega

theorem consumes_readBytes (n : Nat) : Consumes (readBytes n) n := by
  intro bs a rest h
  unfold readBytes at h
  split at h
  · simp only [Option.some.injEq, Prod.mk.injEq] at h
    obtain ⟨h1, h2⟩ := h
    subst h2
    rw [List.length_drop]
    omega
  · simp at h

theorem consumes_readUInt (n : Nat) : Consumes (readUInt n) n := by
  intro bs a rest h
  unfold readUInt at h
  cases hrb : readBytes n bs with
  | none => rw [hrb] at h; simp at h
  | some p =>
    obtain ⟨c, r⟩ := p
    rw [hrb] at h
    simp only [Option.some.injEq, Prod.mk.injEq] at h
    obtain ⟨h1, h2⟩ := h
    subst h2
    exact consumes_readBytes n bs c _ hrb

theorem consumes_readU64List : ∀ k, Consumes (readU64List k) (8 * k) := by
  intro k
  induction k with
  | zero =>
    have h : Consumes (readU64List 0) 0 := by
      unfold readU64List
      exact consumes_pureR []
    exact consumes_eq h (by omega)
  | succ k ih =>
    have h : Consumes (readU64List (Nat.succ k)) (8 + (8 * k + 0)) := by
      unfold readU64List
      exact consumes_bindR (consumes_readUInt 8) fun x =>
        consumes_bindR ih fun xs => consumes_pureR (x :: xs)
    exact consumes_eq h (by omega)

theorem consumes_readMany {α : Type} {d : Reader α} {ke : Nat}
    (hd : Consumes d ke) : ∀ n, Consumes (readMany n d) (n * ke) := by
  intro n
  induction n with
  | zero =>
    have h : Consumes (readMany 0 d) 0 := by
      unfold readMany
      exact consumes_pureR []
    exact consumes_eq h (by omega)
  | succ n ih =>
    have h : Consumes (readMany (Nat.succ n) d) (ke + (n * ke + 0)) := by
      unfold readMany
      exact consumes_bindR hd fun x =>
        consumes_bindR ih fun xs => consumes_pureR (x :: xs)
    exact consumes_eq h (by ring)

theorem bindR_eq_some {α β : Type} {d : Reader α} {f : α → Reader β}
    {bs : List Nat} {b : β} {rest : List Nat}
    (h : bindR d f bs = some (b, rest)) :
    ∃ a mid, d bs = some (a, mid) ∧ f a mid = some (b, rest) := by
  unfold bindR at h
  cases hd : d bs with
  | none => rw [hd] at h; simp at h
  | some p =>
    obtain ⟨a, mid⟩ := p
    rw [hd] at h
    exact ⟨a, mid, rfl, h⟩

theorem readMany_length {α : Type} :
    ∀ (n : Nat) (d : Reader α) (bs : List Nat) (l : List α) (rest : List Nat),
      readMany n d bs = some (l, rest) → l.length = n := by
  intro n
  induction n with
  | zero =>
    intro d bs l rest h
    unfold readMany pureR at h
    simp only [Option.some.injEq, Prod.mk.injEq] at h
    rw [← h.1]
    rfl
  | succ n ih =>
    intro d bs l rest h
    unfold readMany at h
    obtain ⟨x, r1, hd, h2⟩ := bindR_eq_some h
    obtain ⟨xs, r2, hm, h3⟩ := bindR_eq_some h2
    simp only [pureR, Option.some.injEq, Prod.mk.injEq] at h3
    rw [← h3.1]
    simp [ih d r1 xs r2 hm]

theorem totalOn_pureR {α : Type} (a : α) : TotalOn (pureR a) 0 := by
  intro bs h
  exact ⟨a, by simp [pureR]⟩

theorem totalOn_readBytes (n : Nat) : TotalOn (readBytes n) n := by
  intro bs h
  exact ⟨bs.take n, by simp [readBytes, h]⟩

theorem totalOn_readUInt (n : Nat) : TotalOn (readUInt n) n := by
  intro bs h
  exact ⟨leNat (bs.take n), by simp [readUInt, readBytes, h]⟩

theorem totalOn_bindR {α β : Type} {d : Reader α} {f : α → Reader β} {k m : Nat}
    (hd : TotalOn d k) (hf : ∀ a, TotalOn (f a) m) : TotalOn (bindR d f) (k + m) := by
  intro bs h
  obtain ⟨a, ha⟩ := hd bs (by omega)
  obtain ⟨b, hb⟩ := hf a (bs.drop k) (by rw [List.length_drop]; omega)
  refine ⟨b, ?_⟩
  have h1 : bindR d f bs = f a (bs.drop k) := by
    unfold bindR
    rw [ha]
  rw [h1, hb, List.drop_drop]

theorem totalOn_readU64List : ∀ k, TotalOn (readU64List k) (8 * k) := by
  intro k
  induction k with
  | zero =>
    have h : TotalOn (readU64List 0) 0 := by
      unfold readU64List
      exact totalOn_pureR []
    exact totalOn_eq h (by omega)
  | succ k ih =>
    have h : TotalOn (readU64List (Nat.succ k)) (8 + (8 * k + 0)) := by
      unfold readU64List
      exact totalOn_bindR (totalOn_readUInt 8) fun x =>
        totalOn_bindR ih fun xs => totalOn_pureR (x :: xs)
    exact totalOn_eq h (by omega)

theorem bindR_none_tail {α β : Type} {d : Reader α} {k : Nat} (hd : TotalOn d k)
    {f : α → Reader β} {bs : List Nat} (h : k ≤ bs.length)
    (hf : ∀ a, f a (bs.drop k) = none) : bindR d f bs = none := by
  obtain ⟨a, ha⟩ := hd bs h
  have h1 : bindR d f bs = f a (bs.drop k) := by
    unfold bindR
    rw [ha]
  rw [h1]
  exact hf a

/-! ## Per-record consumption and totality -/

theorem POOL_STATE_SIZE_eq : POOL_STATE_SIZE = 485 := by norm_num [POOL_STATE_SIZE]

theorem GLOBAL_CONFIG_SIZE_eq : GLOBAL_CONFIG_SIZE = 363 := by norm_num [GLOBAL_CONFIG_SIZE]

theorem PLATFORM_CONFIG_SIZE_eq : PLATFORM_CONFIG_SIZE = 932 := by norm_num [PLATFORM_CONFIG_SIZE]

theorem consumes_tradeDirectionDeser : Consumes tradeDirectionDeser 1 := by
  have h : Consumes tradeDirectionDeser (1 + 0) := by
    unfold tradeDirectionDeser
    refine consumes_bindR (consumes_readUInt 1) fun tag => ?_
    split
    · exact consumes_pureR _
    split
    · exact consumes_pureR _
    · exact consumes_failR 0
  exact consumes_eq h (by omega)

theorem consumes_poolStatusDeser : Consumes poolStatusDeser 1 := by
  have h : Consumes poolStatusDeser (1 + 0) := by
    unfold poolStatusDeser
    refine consumes_bindR (consumes_readUInt 1) fun tag => ?_
    split
    · exact consumes_pureR _
    split
    · exact consumes_pureR _
    split
    · exact consumes_pureR _
    · exact consumes_failR 0
  exact consumes_eq h (by omega)

theorem consumes_ammCreatorFeeOnDeser : Consumes ammCreatorFeeOnDeser 1 := by
  have h : Consumes ammCreatorFeeOnDeser (1 + 0) := by
    unfold ammCreatorFeeOnDeser
    refine consumes_bindR (consumes_readUInt 1) fun tag => ?_
    split
    · exact consumes_pureR _
    split
    · exact consumes_pureR _
    · exact consumes_failR 0
  exact consumes_eq h (by omega)

theorem consumes_vestingScheduleDeser : Consumes vestingScheduleDeser 40 := by
  have h : Consumes vestingScheduleDeser (8 + (8 + (8 + (8 + (8 + 0))))) := by
    unfold vestingScheduleDeser
    refine consumes_bindR (consumes_readUInt 8) fun a => ?_
    refine consumes_bindR (consumes_readUInt 8) fun a => ?_
    refine consumes_bindR (consumes_readUInt 8) fun a => ?_
    refine consumes_bindR (consumes_readUInt 8) fun a => ?_
    refine consumes_bindR (consumes_readUInt 8) fun a => ?_
    exact consumes_pureR _
  exact consumes_eq h (by omega)

/-- A successful PoolState deserialization consumes exactly 421 bytes: the
true Borsh size of the PoolState layout. -/
theorem consumes_poolStateDeser : Consumes poolStateDeser 421 := by
  have h : Consumes poolStateDeser
      (8 + (1 + (1 + (1 + (1 + (1 + (8 + (8 + (8 + (8 + (8 + (8 + (8 + (8 +
        (8 + (8 + (40 + (32 + (32 + (32 + (32 + (32 + (32 + (32 + (1 + (1 +
        (8 + (54 + 0)))))))))))))))))))))))))))) := by
    unfold poolStateDeser
    refine consumes_bindR (consumes_readUInt 8) fun a => ?_
    refine consumes_bindR (consumes_readUInt 1) fun a => ?_
    refine consumes_bindR (consumes_readUInt 1) fun a => ?_
    refine consumes_bindR (consumes_readUInt 1) fun a => ?_
    refine consumes_bindR (consumes_readUInt 1) fun a => ?_
    refine consumes_bindR (consumes_readUInt 1) fun a => ?_
    refine consumes_bindR (consumes_readUInt 8) fun a => ?_
    refine consumes_bindR (consumes_readUInt 8) fun a => ?_
    refine consumes_bindR (consumes_readUInt 8) fun a => ?_
    refine consumes_bindR (consumes_readUInt 8) fun a => ?_
    refine consumes_bindR (consumes_readUInt 8) fun a => ?_
    refine consumes_bindR (consumes_readUInt 8) fun a => ?_
    refine consumes_bindR (consumes_readUInt 8) fun a => ?_
    refine consumes_bindR (consumes_readUInt 8) fun a => ?_
    refine consumes_bindR (consumes_readUInt 8) fun a => ?_
    refine consumes_bindR (consumes_readUInt 8) fun a => ?_
    refine consumes_bindR consumes_vestingScheduleDeser fun a => ?_
    refine consumes_bindR (consumes_readBytes 32) fun a => ?_
    refine consumes_bindR (consumes_readBytes 32) fun a => ?_
    refine consumes_bindR (consumes_readBytes 32) fun a => ?_
    refine consumes_bindR (consumes_readBytes 32) fun a => ?_
    refine consumes_bindR (consumes_readBytes 32) fun a => ?_
    refine consumes_bindR (consumes_readBytes 32) fun a => ?_
    refine consumes_bindR (consumes_readBytes 32) fun a => ?_
    refine consumes_bindR (consumes_readUInt 1) fun a => ?_
    refine consumes_bindR consumes_ammCreatorFeeOnDeser fun a => ?_
    refine consumes_bindR (consumes_readUInt 8) fun a => ?_
    refine consumes_bindR (consumes_readBytes 54) fun a => ?_
    exact consumes_pureR _
  exact consumes_eq h (by omega)

/-- A successful GlobalConfig deserialization consumes exactly 363 bytes: the
true Borsh size of the GlobalConfig layout. -/
theorem consumes_globalConfigDeser : Consumes globalConfigDeser 363 := by
  have h : Consumes globalConfigDeser
      (8 + (1 + (2 + (8 + (8 + (8 + (8 + (8 + (8 + (8 + (8 + (32 + (32 + (32 +
        (32 + (32 + (128 + 0))))))))))))))))) := by
    unfold globalConfigDeser
    refine consumes_bindR (consumes_readUInt 8) fun a => ?_
    refine consumes_bindR (consumes_readUInt 1) fun a => ?_
    refine consumes_bindR (consumes_readUInt 2) fun a => ?_
    refine consumes_bindR (consumes_readUInt 8) fun a => ?_
    refine consumes_bindR (consumes_readUInt 8) fun a => ?_
    refine consumes_bindR (consumes_readUInt 8) fun a => ?_
    refine consumes_bindR (consumes_readUInt 8) fun a => ?_
    refine consumes_bindR (consumes_readUInt 8) fun a => ?_
    refine consumes_bindR (consumes_readUInt 8) fun a => ?_
    refine consumes_bindR (consumes_readUInt 8) fun a => ?_
    refine consumes_bindR (consumes_readUInt 8) fun a => ?_
    refine consumes_bindR (consumes_readBytes 32) fun a => ?_
    refine consumes_bindR (consumes_readBytes 32) fun a => ?_
    refine consumes_bindR (consumes_readBytes 32) fun a => ?_
    refine consumes_bindR (consumes_readBytes 32) fun a => ?_
    refine consumes_bindR (consumes_readBytes 32) fun a => ?_
    refine consumes_bindR (consumes_eq (consumes_readU64List 16) (by omega)) fun a => ?_
    exact consumes_pureR _
  exact consumes_eq h (by omega)

/-- On any input of at least 363 bytes, GlobalConfig deserialization succeeds
and consumes exactly 363: no field of GlobalConfig can fail. -/
theorem totalOn_globalConfigDeser : TotalOn globalConfigDeser 363 := by
  have h : TotalOn globalConfigDeser
      (8 + (1 + (2 + (8 + (8 + (8 + (8 + (8 + (8 + (8 + (8 + (32 + (32 + (32 +
        (32 + (32 + (128 + 0))))))))))))))))) := by
    unfold globalConfigDeser
    refine totalOn_bindR (totalOn_readUInt 8) fun a => ?_
    refine totalOn_bindR (totalOn_readUInt 1) fun a => ?_
    refine totalOn_bindR (totalOn_readUInt 2) fun a => ?_
    refine totalOn_bindR (totalOn_readUInt 8) fun a => ?_
    refine totalOn_bindR (totalOn_readUInt 8) fun a => ?_
    refine totalOn_bindR (totalOn_readUInt 8) fun a => ?_
    refine totalOn_bindR (totalOn_readUInt 8) fun a => ?_
    refine totalOn_bindR (totalOn_readUInt 8) fun a => ?_
    refine totalOn_bindR (totalOn_readUInt 8) fun a => ?_
    refine totalOn_bindR (totalOn_readUInt 8) fun a => ?_
    refine totalOn_bindR (totalOn_readUInt 8) fun a => ?_
    refine totalOn_bindR (totalOn_readBytes 32) fun a => ?_
    refine totalOn_bindR (totalOn_readBytes 32) fun a => ?_
    refine totalOn_bindR (totalOn_readBytes 32) fun a => ?_
    refine totalOn_bindR (totalOn_readBytes 32) fun a => ?_
    refine totalOn_bindR (totalOn_readBytes 32) fun a => ?_
    refine totalOn_bindR (totalOn_eq (totalOn_readU64List 16) (by omega)) fun a => ?_
    exact totalOn_pureR _
  exact totalOn_eq h (by omega)

theorem consumes_bondingCurveParamDeser : Consumes bondingCurveParamDeser 50 := by
  have h : Consumes bondingCurveParamDeser
      (1 + (1 + (8 + (8 + (8 + (8 + (8 + (8 + 0)))))))) := by
    unfold bondingCurveParamDeser
    refine consumes_bindR (consumes_readUInt 1) fun a => ?_
    refine consumes_bindR (consumes_readUInt 1) fun a => ?_
    refine consumes_bindR (consumes_readUInt 8) fun a => ?_
    refine consumes_bindR (consumes_readUInt 8) fun a => ?_
    refine consumes_bindR (consumes_readUInt 8) fun a => ?_
    refine consumes_bindR (consumes_readUInt 8) fun a => ?_
    refine consumes_bindR (consumes_readUInt 8) fun a => ?_
    refine consumes_bindR (consumes_readUInt 8) fun a => ?_
    exact consumes_pureR _
  exact consumes_eq h (by omega)

/-- A successful PlatformCurveParam deserialization consumes exactly 491
bytes: the true Borsh size of the trailing sub-record. -/
theorem consumes_platformCurveParamDeser : Consumes platformCurveParamDeser 491 := by
  have h : Consumes platformCurveParamDeser (8 + (1 + (32 + (50 + (400 + 0))))) := by
    unfold platformCurveParamDeser
    refine consumes_bindR (consumes_readUInt 8) fun a => ?_
    refine consumes_bindR (consumes_readUInt 1) fun a => ?_
    refine consumes_bindR (consumes_readBytes 32) fun a => ?_
    refine consumes_bindR consumes_bondingCurveParamDeser fun a => ?_
    refine consumes_bindR (consumes_eq (consumes_readU64List 50) (by omega)) fun a => ?_
    exact consumes_pureR _
  exact consumes_eq h (by omega)

/-- A successful Vec of curve params consumes 4 bytes of wire-read element
count plus 491 per element. -/
theorem consumesD_readVecCurve :
    ConsumesD (readVec platformCurveParamDeser) (fun l => 4 + 491 * l.length) := by
  intro bs l rest h
  unfold readVec at h
  obtain ⟨n, mid, h4, hm⟩ := bindR_eq_some h
  have e1 := consumes_readUInt 4 bs n mid h4
  have e2 := consumes_readMany consumes_platformCurveParamDeser n mid l rest hm
  have e3 := readMany_length n platformCurveParamDeser mid l rest hm
  subst e3
  show bs.length = 4 + 491 * l.length + rest.length
  omega

theorem consumesD_bindR_fixed {α β : Type} {d : Reader α} {k : Nat}
    {f : α → Reader β} {m : β → Nat}
    (hd : Consumes d k) (hf : ∀ a, ConsumesD (f a) m) :
    ConsumesD (bindR d f) (fun b => k + m b) := by
  intro bs b rest h
  obtain ⟨a, mid, hda, hfa⟩ := bindR_eq_some h
  have h1 := hd bs a mid hda
  have h2 := hf a mid b rest hfa
  show bs.length = k + m b + rest.length
  omega

/-- A successful PlatformConfig deserialization consumes exactly 932 bytes of
fixed fields plus the length-prefixed Vec: 4 bytes of element count plus 491
bytes per trailing curve param. -/
theorem consumesD_platformConfigDeser :
    ConsumesD platformConfigDeser
      (fun pc => PLATFORM_CONFIG_SIZE + (4 + 491 * pc.curve_params.length)) := by
  have h : ConsumesD platformConfigDeser
      (fun pc => 8 + (32 + (32 + (8 + (8 + (8 + (8 + (64 + (256 + (256 + (32 +
        (8 + (32 + (32 + (8 + (32 + (108 + (4 + 491 * pc.curve_params.length)
        ))))))))))))))))) := by
    unfold platformConfigDeser
    refine consumesD_bindR_fixed (consumes_readUInt 8) fun a => ?_
    refine consumesD_bindR_fixed (consumes_readBytes 32) fun a => ?_
    refine consumesD_bindR_fixed (consumes_readBytes 32) fun a => ?_
    refine consumesD_bindR_fixed (consumes_readUInt 8) fun a => ?_
    refine consumesD_bindR_fixed (consumes_readUInt 8) fun a => ?_
    refine consumesD_bindR_fixed (consumes_readUInt 8) fun a => ?_
    refine consumesD_bindR_fixed (consumes_readUInt 8) fun a => ?_
    refine consumesD_bindR_fixed (consumes_readBytes 64) fun a => ?_
    refine consumesD_bindR_fixed (consumes_readBytes 256) fun a => ?_
    refine consumesD_bindR_fixed (consumes_readBytes 256) fun a => ?_
    refine consumesD_bindR_fixed (consumes_readBytes 32) fun a => ?_
    refine consumesD_bindR_fixed (consumes_readUInt 8) fun a => ?_
    refine consumesD_bindR_fixed (consumes_readBytes 32) fun a => ?_
    refine consumesD_bindR_fixed (consumes_readBytes 32) fun a => ?_
    refine consumesD_bindR_fixed (consumes_readUInt 8) fun a => ?_
    refine consumesD_bindR_fixed (consumes_readBytes 32) fun a => ?_
    refine consumesD_bindR_fixed (consumes_readBytes 108) fun a => ?_
    intro bs b rest hsome
    obtain ⟨cps, mid, hv, hp⟩ := bindR_eq_some hsome
    simp only [pureR, Option.some.injEq, Prod.mk.injEq] at hp
    obtain ⟨hb, hr⟩ := hp
    subst hr
    have hc := consumesD_readVecCurve bs cps mid hv
    rw [← hb]
    exact hc
  refine consumesD_eq h fun a => ?_
  rw [PLATFORM_CONFIG_SIZE_eq]
  omega

/-! ## Behavior of the public decode and lift operations -/

/-- pool_state_decode returns no value for every input: from_slice demands
exact consumption of the 485-byte window, but the PoolState layout consumes
only 421 bytes. -/
theorem pool_state_decode_eq_none (data : List Nat) : pool_state_decode data = none := by
  unfold pool_state_decode
  by_cases hlt : data.length < POOL_STATE_SIZE
  · rw [if_pos hlt]
  · rw [if_neg hlt]
    unfold fromSlice
    cases hd : poolStateDeser (data.take POOL_STATE_SIZE) with
    | none => rfl
    | some p =>
      obtain ⟨a, rest⟩ := p
      have hc := consumes_poolStateDeser _ a rest hd
      rw [List.length_take] at hc
      rw [POOL_STATE_SIZE_eq] at hc hlt
      cases rest with
      | nil => exfalso; simp at hc; omega
      | cons x xs => rfl

/-- platform_config_decode returns no value for every input: the 932-byte
window holds exactly the fixed fields, and the Vec of curve params needs at
least 4 more bytes for its wire-read element count. -/
theorem platform_config_decode_eq_none (data : List Nat) :
    platform_config_decode data = none := by
  unfold platform_config_decode
  by_cases hlt : data.length < PLATFORM_CONFIG_SIZE
  · rw [if_pos hlt]
  · rw [if_neg hlt]
    unfold fromSlice
    cases hd : platformConfigDeser (data.take PLATFORM_CONFIG_SIZE) with
    | none => rfl
    | some p =>
      obtain ⟨a, rest⟩ := p
      exfalso
      have hc := consumesD_platformConfigDeser _ a rest hd
      rw [List.length_take] at hc
      rw [PLATFORM_CONFIG_SIZE_eq] at hc hlt
      simp at hc
      omega

/-- pool_state_parser returns no value for every account and metadata. -/
theorem poolStateParser_eq_none (account : AccountPretty) (metadata : EventMetadata) :
    poolStateParser account metadata = none := by
  unfold poolStateParser
  by_cases h : account.data.length < POOL_STATE_SIZE + 8
  · rw [if_pos h]
  · rw [if_neg h, pool_state_decode_eq_none]

/-- platform_config_parser returns no value for every account and metadata. -/
theorem platformConfigParser_eq_none (account : AccountPretty) (metadata : EventMetadata) :
    platformConfigParser account metadata = none := by
  unfold platformConfigParser
  by_cases h : account.data.length < PLATFORM_CONFIG_SIZE + 8
  · rw [if_pos h]
  · rw [if_neg h, platform_config_decode_eq_none]

/-- global_config_decode succeeds on every buffer of length at least 363. -/
theorem global_config_decode_some (data : List Nat)
    (h : GLOBAL_CONFIG_SIZE ≤ data.length) :
    ∃ r, global_config_decode data = some r := by
  obtain ⟨r, hr⟩ := totalOn_globalConfigDeser (data.take GLOBAL_CONFIG_SIZE)
    (by rw [List.length_take, GLOBAL_CONFIG_SIZE_eq] at *; omega)
  have hnil : (data.take GLOBAL_CONFIG_SIZE).drop 363 = [] :=
    List.drop_eq_nil_of_le (by rw [List.length_take, GLOBAL_CONFIG_SIZE_eq]; omega)
  rw [hnil] at hr
  refine ⟨r, ?_⟩
  unfold global_config_decode
  rw [if_neg (by omega)]
  unfold fromSlice
  rw [hr]

/-- global_config_parser succeeds on every account whose payload has at least
363 + 8 bytes, whatever the 8 leading discriminator bytes hold. -/
theorem globalConfigParser_some (account : AccountPretty) (metadata : EventMetadata)
    (h : GLOBAL_CONFIG_SIZE + 8 ≤ account.data.length) :
    ∃ e, globalConfigParser account metadata = some e := by
  obtain ⟨r, hr⟩ := global_config_decode_some ((account.data.drop 8).take GLOBAL_CONFIG_SIZE)
    (by rw [List.length_take, List.length_drop, GLOBAL_CONFIG_SIZE_eq] at *; omega)
  have hres : globalConfigParser account metadata =
      some (DexEvent.BonkGlobalConfigAccountEvent
        { metadata := { metadata with event_type := EventType.AccountBonkGlobalConfig },
          pubkey := account.pubkey, executable := account.executable,
          lamports := account.lamports, owner := account.owner,
          rent_epoch := account.rent_epoch, global_config := r }) := by
    unfold globalConfigParser
    rw [if_neg (by omega), hr]
  exact ⟨_, hres⟩

/-! ## Enum tag behavior -/

theorem tradeDirectionDeser_zero (rest : List Nat) :
    tradeDirectionDeser (0 :: rest) = some (TradeDirection.Buy, rest) := by
  simp [tradeDirectionDeser, bindR, readUInt, readBytes, pureR, leNat]

theorem tradeDirectionDeser_one (rest : List Nat) :
    tradeDirectionDeser (1 :: rest) = some (TradeDirection.Sell, rest) := by
  simp [tradeDirectionDeser, bindR, readUInt, readBytes, pureR, leNat]

theorem tradeDirectionDeser_bad (b : Nat) (rest : List Nat) (hb : 2 ≤ b) :
    tradeDirectionDeser (b :: rest) = none := by
  have hb0 : b ≠ 0 := by omega
  have hb1 : b ≠ 1 := by omega
  simp [tradeDirectionDeser, bindR, readUInt, readBytes, pureR, failR, leNat, hb0, hb1]

theorem poolStatusDeser_zero (rest : List Nat) :
    poolStatusDeser (0 :: rest) = some (PoolStatus.Fund, rest) := by
  simp [poolStatusDeser, bindR, readUInt, readBytes, pureR, leNat]

theorem poolStatusDeser_one (rest : List Nat) :
    poolStatusDeser (1 :: rest) = some (PoolStatus.Migrate, rest) := by
  simp [poolStatusDeser, bindR, readUInt, readBytes, pureR, leNat]

theorem poolStatusDeser_two (rest : List Nat) :
    poolStatusDeser (2 :: rest) = some (PoolStatus.Trade, rest) := by
  simp [poolStatusDeser, bindR, readUInt, readBytes, pureR, leNat]

theorem poolStatusDeser_bad (b : Nat) (rest : List Nat) (hb : 3 ≤ b) :
    poolStatusDeser (b :: rest) = none := by
  have hb0 : b ≠ 0 := by omega
  have hb1 : b ≠ 1 := by omega
  have hb2 : b ≠ 2 := by omega
  simp [poolStatusDeser, bindR, readUInt, readBytes, pureR, failR, leNat, hb0, hb1, hb2]

theorem ammCreatorFeeOnDeser_zero (rest : List Nat) :
    ammCreatorFeeOnDeser (0 :: rest) = some (AmmCreatorFeeOn.QuoteToken, rest) := by
  simp [ammCreatorFeeOnDeser, bindR, readUInt, readBytes, pureR, leNat]

theorem ammCreatorFeeOnDeser_one (rest : List Nat) :
    ammCreatorFeeOnDeser (1 :: rest) = some (AmmCreatorFeeOn.BothToken, rest) := by
  simp [ammCreatorFeeOnDeser, bindR, readUInt, readBytes, pureR, leNat]

theorem ammCreatorFeeOnDeser_bad (b : Nat) (rest : List Nat) (hb : 2 ≤ b) :
    ammCreatorFeeOnDeser (b :: rest) = none := by
  have hb0 : b ≠ 0 := by omega
  have hb1 : b ≠ 1 := by omega
  simp [ammCreatorFeeOnDeser, bindR, readUInt, readBytes, pureR, failR, leNat, hb0, hb1]

theorem totalOn_vestingScheduleDeser : TotalOn vestingScheduleDeser 40 := by
  have h : TotalOn vestingScheduleDeser (8 + (8 + (8 + (8 + (8 + 0))))) := by
    unfold vestingScheduleDeser
    refine totalOn_bindR (totalOn_readUInt 8) fun a => ?_
    refine totalOn_bindR (totalOn_readUInt 8) fun a => ?_
    refine totalOn_bindR (totalOn_readUInt 8) fun a => ?_
    refine totalOn_bindR (totalOn_readUInt 8) fun a => ?_
    refine totalOn_bindR (totalOn_readUInt 8) fun a => ?_
    exact totalOn_pureR _
  exact totalOn_eq h (by omega)

/-- An out-of-range amm_creator_fee_on discriminant (the byte at offset 358 of
the PoolState layout) makes the whole PoolState deserialization fail: the
field failure propagates to the record. -/
theorem poolStateDeser_bad_amm (pre : List Nat) (b : Nat) (post : List Nat)
    (hpre : pre.length = 358) (hb : 2 ≤ b) :
    poolStateDeser (pre ++ b :: post) = none := by
  have hlen : (pre ++ b :: post).length = 359 + post.length := by
    simp [hpre]
    omega
  unfold poolStateDeser
  refine bindR_none_tail (totalOn_readUInt 8) (by simp only [hlen]; omega) fun a => ?_
  refine bindR_none_tail (totalOn_readUInt 1) (by simp only [List.length_drop, hlen]; omega) fun a => ?_
  refine bindR_none_tail (totalOn_readUInt 1) (by simp only [List.length_drop, hlen]; omega) fun a => ?_
  refine bindR_none_tail (totalOn_readUInt 1) (by simp only [List.length_drop, hlen]; omega) fun a => ?_
  refine bindR_none_tail (totalOn_readUInt 1) (by simp only [List.length_drop, hlen]; omega) fun a => ?_
  refine bindR_none_tail (totalOn_readUInt 1) (by simp only [List.length_drop, hlen]; omega) fun a => ?_
  refine bindR_none_tail (totalOn_readUInt 8) (by simp only [List.length_drop, hlen]; omega) fun a => ?_
  refine bindR_none_tail (totalOn_readUInt 8) (by simp only [List.length_drop, hlen]; omega) fun a => ?_
  refine bindR_none_tail (totalOn_readUInt 8) (by simp only [List.length_drop, hlen]; omega) fun a => ?_
  refine bindR_none_tail (totalOn_readUInt 8) (by simp only [List.length_drop, hlen]; omega) fun a => ?_
  refine bindR_none_tail (totalOn_readUInt 8) (by simp only [List.length_drop, hlen]; omega) fun a => ?_
  refine bindR_none_tail (totalOn_readUInt 8) (by simp only [List.length_drop, hlen]; omega) fun a => ?_
  refine bindR_none_tail (totalOn_readUInt 8) (by simp only [List.length_drop, hlen]; omega) fun a => ?_
  refine bindR_none_tail (totalOn_readUInt 8) (by simp only [List.length_drop, hlen]; omega) fun a => ?_
  refine bindR_none_tail (totalOn_readUInt 8) (by simp only [List.length_drop, hlen]; omega) fun a => ?_
  refine bindR_none_tail (totalOn_readUInt 8) (by simp only [List.length_drop, hlen]; omega) fun a => ?_
  refine bindR_none_tail totalOn_vestingScheduleDeser (by simp only [List.length_drop, hlen]; omega) fun a => ?_
  refine bindR_none_tail (totalOn_readBytes 32) (by simp only [List.length_drop, hlen]; omega) fun a => ?_
  refine bindR_none_tail (totalOn_readBytes 32) (by simp only [List.length_drop, hlen]; omega) fun a => ?_
  refine bindR_none_tail (totalOn_readBytes 32) (by simp only [List.length_drop, hlen]; omega) fun a => ?_
  refine bindR_none_tail (totalOn_readBytes 32) (by simp only [List.length_drop, hlen]; omega) fun a => ?_
  refine bindR_none_tail (totalOn_readBytes 32) (by simp only [List.length_drop, hlen]; omega) fun a => ?_
  refine bindR_none_tail (totalOn_readBytes 32) (by simp only [List.length_drop, hlen]; omega) fun a => ?_
  refine bindR_none_tail (totalOn_readBytes 32) (by simp only [List.length_drop, hlen]; omega) fun a => ?_
  refine bindR_none_tail (totalOn_readUInt 1) (by simp only [List.length_drop, hlen]; omega) fun a => ?_
  simp only [List.drop_drop]
  have hdrop : List.drop 358 (pre ++ b :: post) = b :: post := by
    rw [← hpre]
    exact List.drop_left pre (b :: post)
  rw [hdrop]
  have hamm := ammCreatorFeeOnDeser_bad b post hb
  unfold bindR
  rw [hamm]

/-! ## Concrete evaluations used by the witnesses -/

set_option maxRecDepth 200000

/-- The PoolState record decoded from 421 zero bytes. -/
def poolStateZero : PoolState where
  epoch := 0
  auth_bump := 0
  status := 0
  base_decimals := 0
  quote_decimals := 0
  migrate_type := 0
  supply := 0
  total_base_sell := 0
  virtual_base := 0
  virtual_quote := 0
  real_base := 0
  real_quote := 0
  total_quote_fund_raising := 0
  quote_protocol_fee := 0
  platform_fee := 0
  migrate_fee := 0
  vesting_schedule :=
    { total_locked_amount := 0, cliff_period := 0, unlock_period := 0,
      start_time := 0, allocated_share_amount := 0 }
  global_config := List.replicate 32 0
  platform_config := List.replicate 32 0
  base_mint := List.replicate 32 0
  quote_mint := List.replicate 32 0
  base_vault := List.replicate 32 0
  quote_vault := List.replicate 32 0
  creator := List.replicate 32 0
  token_program_flag := 0
  amm_creator_fee_on := AmmCreatorFeeOn.QuoteToken
  platform_vesting_share := 0
  padding := List.replicate 54 0

/-- The GlobalConfig record decoded from 363 zero bytes. -/
def globalConfigZero : GlobalConfig where
  epoch := 0
  curve_type := 0
  index := 0
  migrate_fee := 0
  trade_fee_rate := 0
  max_share_fee_rate := 0
  min_base_supply := 0
  max_lock_rate := 0
  min_base_sell_rate := 0
  min_base_migrate_rate := 0
  min_quote_fund_raising := 0
  quote_mint := List.replicate 32 0
  protocol_fee_owner := List.replicate 32 0
  migrate_fee_owner := List.replicate 32 0
  migrate_to_amm_wallet := List.replicate 32 0
  migrate_to_cpswap_wallet := List.replicate 32 0
  padding := List.replicate 16 0

/-- The PlatformConfig record decoded from 936 zero bytes (932 fixed bytes
plus a zero u32 element count). -/
def platformConfigZero : PlatformConfig where
  epoch := 0
  platform_fee_wallet := List.replicate 32 0
  platform_nft_wallet := List.replicate 32 0
  platform_scale := 0
  creator_scale := 0
  burn_scale := 0
  fee_rate := 0
  name := List.replicate 64 0
  web := List.replicate 256 0
  img := List.replicate 256 0
  cpswap_config := List.replicate 32 0
  creator_fee_rate := 0
  transfer_fee_extension_auth := List.replicate 32 0
  platform_vesting_wallet := List.replicate 32 0
  platform_vesting_scale := 0
  platform_cp_creator := List.replicate 32 0
  padding := List.replicate 108 0
  curve_params := []

theorem poolStateDeser_zero421 :
    poolStateDeser (List.replicate 421 0) = some (poolStateZero, []) := by decide

theorem globalConfigDeser_zero363 :
    globalConfigDeser (List.replicate 363 0) = some (globalConfigZero, []) := by decide

theorem platformConfigDeser_zero936 :
    platformConfigDeser (List.replicate 936 0) = some (platformConfigZero, []) := by decide

theorem global_config_decode_zero363 :
    global_config_decode (List.replicate 363 0) = some globalConfigZero := by decide

/-- A sample account snapshot with a 371-byte all-zero payload and nonzero
snapshot metadata. -/
def account371 : AccountPretty where
  pubkey := List.replicate 32 1
  executable := false
  lamports := 5
  owner := List.replicate 32 2
  rent_epoch := 7
  data := List.replicate 371 0

/-- A sample caller-supplied metadata value with a foreign event-type tag. -/
def mdSample : EventMetadata where
  event_type := EventType.OtherEventKind 3
  correlation := 9

/-- The event emitted by global_config_parser on account371. -/
def globalEventSample : DexEvent :=
  DexEvent.BonkGlobalConfigAccountEvent
    { metadata := { event_type := EventType.AccountBonkGlobalConfig, correlation := 9 },
      pubkey := List.replicate 32 1, executable := false, lamports := 5,
      owner := List.replicate 32 2, rent_epoch := 7,
      global_config := globalConfigZero }

theorem globalConfigParser_sample :
    globalConfigParser account371 mdSample = some globalEventSample := by decide

/-! ## Further helper lemmas and sample inputs -/

/-- Sample accounts differing from account371 only in the payload. -/
def account493 : AccountPretty := { account371 with data := List.replicate 493 0 }

def account940 : AccountPretty := { account371 with data := List.replicate 940 0 }

def account492 : AccountPretty := { account371 with data := List.replicate 492 0 }

def account370 : AccountPretty := { account371 with data := List.replicate 370 0 }

def account939 : AccountPretty := { account371 with data := List.replicate 939 0 }

def accountEmpty : AccountPretty := { account371 with data := [] }

/-- A successful global_config_decode needs at least the full fixed window. -/
theorem global_config_decode_some_length (data : List Nat) (r : GlobalConfig)
    (h : global_config_decode data = some r) : GLOBAL_CONFIG_SIZE ≤ data.length := by
  unfold global_config_decode at h
  by_cases hlt : data.length < GLOBAL_CONFIG_SIZE
  · rw [if_pos hlt] at h
    simp at h
  · omega

/-- global_config_parser returns no value on a payload one byte short of the
discriminator plus the fixed window. -/
theorem globalConfigParser_short (account : AccountPretty) (metadata : EventMetadata)
    (h : account.data.length < GLOBAL_CONFIG_SIZE + 8) :
    globalConfigParser account metadata = none := by
  unfold globalConfigParser
  rw [if_pos h]

/-- The result of global_config_parser depends only on the payload after the
8 discriminator bytes: their content is never inspected. -/
theorem globalConfigParser_data_congr (pk : List Nat) (ex : Bool) (lp : Nat)
    (ow : List Nat) (re : Nat) (md : EventMetadata) (d8 d8x t : List Nat)
    (h8 : d8.length = 8) (h8x : d8x.length = 8) :
    globalConfigParser ⟨pk, ex, lp, ow, re, d8 ++ t⟩ md =
      globalConfigParser ⟨pk, ex, lp, ow, re, d8x ++ t⟩ md := by
  unfold globalConfigParser
  dsimp only
  have hd : (d8 ++ t).drop 8 = t := by
    rw [← h8]
    exact List.drop_left d8 t
  have hdx : (d8x ++ t).drop 8 = t := by
    rw [← h8x]
    exact List.drop_left d8x t
  have hl : (d8 ++ t).length = 8 + t.length := by simp [h8]
  have hlx : (d8x ++ t).length = 8 + t.length := by simp [h8x]
  rw [hd, hdx, hl, hlx]

/-- The property C7 asserts of an emitted event: the tag fixed for its record
kind is stamped into the caller-supplied metadata, whose other content is
kept, the event carries exactly the record decoded from the payload window
past the 8 discriminator bytes, and the snapshot fields are echoed
verbatim. -/
def eventEchoesSnapshot (account : AccountPretty) (metadata : EventMetadata)
    (e : DexEvent) : Prop :=
  match e with
  | DexEvent.BonkPoolStateAccountEvent ev =>
      ev.metadata.event_type = EventType.AccountBonkPoolState ∧
      pool_state_decode ((account.data.drop 8).take POOL_STATE_SIZE) =
        some ev.pool_state ∧
      ev.metadata.correlation = metadata.correlation ∧
      ev.pubkey = account.pubkey ∧ ev.executable = account.executable ∧
      ev.lamports = account.lamports ∧ ev.owner = account.owner ∧
      ev.rent_epoch = account.rent_epoch
  | DexEvent.BonkGlobalConfigAccountEvent ev =>
      ev.metadata.event_type = EventType.AccountBonkGlobalConfig ∧
      global_config_decode ((account.data.drop 8).take GLOBAL_CONFIG_SIZE) =
        some ev.global_config ∧
      ev.metadata.correlation = metadata.correlation ∧
      ev.pubkey = account.pubkey ∧ ev.executable = account.executable ∧
      ev.lamports = account.lamports ∧ ev.owner = account.owner ∧
      ev.rent_epoch = account.rent_epoch
  | DexEvent.BonkPlatformConfigAccountEvent ev =>
      ev.metadata.event_type = EventType.AccountBonkPlatformConfig ∧
      platform_config_decode ((account.data.drop 8).take PLATFORM_CONFIG_SIZE) =
        some ev.platform_config ∧
      ev.metadata.correlation = metadata.correlation ∧
      ev.pubkey = account.pubkey ∧ ev.executable = account.executable ∧
      ev.lamports = account.lamports ∧ ev.owner = account.owner ∧
      ev.rent_epoch = account.rent_epoch

/-! ## Claims -/

/-- C1 (code bug): the claim says every decode succeeds, given otherwise-valid
bytes, on every buffer at or above the fixed size.  Evaluating the code: on a
buffer of POOL_STATE_SIZE all-zero bytes (valid for every PoolState field)
pool_state_decode returns no value, and on a buffer of PLATFORM_CONFIG_SIZE
plus one whole trailing sub-record of zero bytes platform_config_decode
returns no value; only global_config_decode behaves as claimed. -/
theorem c1_length_monotonicity_fails :
    pool_state_decode (List.replicate POOL_STATE_SIZE 0) = none ∧
    platform_config_decode (List.replicate (PLATFORM_CONFIG_SIZE + 491) 0) = none ∧
    (∃ r, global_config_decode (List.replicate GLOBAL_CONFIG_SIZE 0) = some r) := by
  refine ⟨pool_state_decode_eq_none _, platform_config_decode_eq_none _,
    ⟨globalConfigZero, ?_⟩⟩
  rw [GLOBAL_CONFIG_SIZE_eq]
  exact global_config_decode_zero363

/-- C2 counterexample: a buffer of exactly PLATFORM_CONFIG_SIZE bytes leaves a
remainder of 0 after the fixed prefix, an exact multiple of the sub-record
size 491, yet platform_config_decode returns no value instead of a
PlatformConfig with an empty trailing collection. -/
theorem c2_variadic_exactness_counterexample :
    (PLATFORM_CONFIG_SIZE - PLATFORM_CONFIG_SIZE) % 491 = 0 ∧
    platform_config_decode (List.replicate PLATFORM_CONFIG_SIZE 0) = none :=
  ⟨by simp, platform_config_decode_eq_none _⟩

/-- C2 (corrected): platform_config_decode returns no value for every buffer:
the curve_params element count is a u32 read from the wire, and the fixed
932-byte decode window leaves no bytes for it, so no remainder ever yields
decoded sub-records (and a fortiori no partial sub-record). -/
theorem c2_variadic_exactness_amended (data : List Nat) :
    platform_config_decode data = none :=
  platform_config_decode_eq_none data

/-- C3 (code bug): the claim says each size constant equals the true
serialized size of its record.  The GlobalConfig and PlatformConfig constants
do (a successful GlobalConfig deserialization consumes exactly
GLOBAL_CONFIG_SIZE bytes; a successful PlatformConfig deserialization
consumes exactly PLATFORM_CONFIG_SIZE fixed bytes plus the trailing
collection), but a successful PoolState deserialization consumes exactly 421
bytes while POOL_STATE_SIZE is 485: its defining sum has a spurious 8 * 8
term. -/
theorem c3_size_constants :
    (∀ bs a rest, poolStateDeser bs = some (a, rest) →
      bs.length = 421 + rest.length) ∧
    POOL_STATE_SIZE = 485 ∧ POOL_STATE_SIZE ≠ 421 ∧
    (∀ bs a rest, globalConfigDeser bs = some (a, rest) →
      bs.length = GLOBAL_CONFIG_SIZE + rest.length) ∧
    (∀ bs a rest, platformConfigDeser bs = some (a, rest) →
      bs.length = PLATFORM_CONFIG_SIZE + (4 + 491 * a.curve_params.length) + rest.length) := by
  refine ⟨consumes_poolStateDeser, POOL_STATE_SIZE_eq, ?_, ?_, ?_⟩
  · rw [POOL_STATE_SIZE_eq]
    omega
  · exact consumes_globalConfigDeser
  · exact consumesD_platformConfigDeser

theorem c3_size_constants_witness :
    (List.replicate 421 (0 : Nat)).length = 421 + ([] : List Nat).length ∧
    (List.replicate 363 (0 : Nat)).length = GLOBAL_CONFIG_SIZE + ([] : List Nat).length ∧
    (List.replicate 936 (0 : Nat)).length =
      PLATFORM_CONFIG_SIZE + (4 + 491 * platformConfigZero.curve_params.length) +
        ([] : List Nat).length :=
  ⟨c3_size_constants.1 _ poolStateZero [] poolStateDeser_zero421,
   c3_size_constants.2.2.2.1 _ globalConfigZero [] globalConfigDeser_zero363,
   c3_size_constants.2.2.2.2 _ platformConfigZero [] platformConfigDeser_zero936⟩

/-- C4: pool_state_decode and platform_config_decode return no value for
every input byte sequence (exact consumption fails on the 485-byte window of
a 421-byte layout; the fixed 932-byte window leaves no room for the Vec
count), so pool_state_parser and platform_config_parser return no value for
every account snapshot and every metadata value. -/
theorem c4_always_none :
    (∀ data, pool_state_decode data = none) ∧
    (∀ data, platform_config_decode data = none) ∧
    (∀ account metadata, poolStateParser account metadata = none) ∧
    (∀ account metadata, platformConfigParser account metadata = none) :=
  ⟨pool_state_decode_eq_none, platform_config_decode_eq_none,
   poolStateParser_eq_none, platformConfigParser_eq_none⟩

/-- C5 (code bug): the claim says each of the three account parsers, on a
payload of exactly fixed size + 8 whose window past the 8 skipped bytes is
valid, returns a populated event.  That holds for global_config_parser, and
every parser returns no value on fixed size + 7; the 8 leading bytes are
never inspected.  But pool_state_parser and platform_config_parser return no
value even on all-zero (field-valid) payloads of exactly fixed size + 8. -/
theorem c5_discriminator_skip :
    poolStateParser account493 mdSample = none ∧
    platformConfigParser account940 mdSample = none ∧
    (∀ account metadata, account.data.length = GLOBAL_CONFIG_SIZE + 8 →
      ∃ e, globalConfigParser account metadata = some e) ∧
    (∀ account metadata, account.data.length = POOL_STATE_SIZE + 7 →
      poolStateParser account metadata = none) ∧
    (∀ account metadata, account.data.length = GLOBAL_CONFIG_SIZE + 7 →
      globalConfigParser account metadata = none) ∧
    (∀ account metadata, account.data.length = PLATFORM_CONFIG_SIZE + 7 →
      platformConfigParser account metadata = none) ∧
    (∀ pk ex lp ow re md (d8 d8x t : List Nat), d8.length = 8 → d8x.length = 8 →
      poolStateParser ⟨pk, ex, lp, ow, re, d8 ++ t⟩ md =
        poolStateParser ⟨pk, ex, lp, ow, re, d8x ++ t⟩ md ∧
      globalConfigParser ⟨pk, ex, lp, ow, re, d8 ++ t⟩ md =
        globalConfigParser ⟨pk, ex, lp, ow, re, d8x ++ t⟩ md ∧
      platformConfigParser ⟨pk, ex, lp, ow, re, d8 ++ t⟩ md =
        platformConfigParser ⟨pk, ex, lp, ow, re, d8x ++ t⟩ md) := by
  refine ⟨poolStateParser_eq_none _ _, platformConfigParser_eq_none _ _,
    fun account metadata h => globalConfigParser_some account metadata (by omega),
    fun _ _ _ => poolStateParser_eq_none _ _,
    fun account metadata h => globalConfigParser_short account metadata (by omega),
    fun _ _ _ => platformConfigParser_eq_none _ _,
    fun pk ex lp ow re md d8 d8x t h8 h8x => ?_⟩
  refine ⟨?_, globalConfigParser_data_congr pk ex lp ow re md d8 d8x t h8 h8x, ?_⟩
  · rw [poolStateParser_eq_none, poolStateParser_eq_none]
  · rw [platformConfigParser_eq_none, platformConfigParser_eq_none]

theorem c5_discriminator_skip_witness :
    (∃ e, globalConfigParser account371 mdSample = some e) ∧
    poolStateParser account492 mdSample = none ∧
    globalConfigParser account370 mdSample = none ∧
    platformConfigParser account939 mdSample = none ∧
    globalConfigParser ⟨[], false, 0, [], 0, List.replicate 8 3 ++ []⟩ mdSample =
      globalConfigParser ⟨[], false, 0, [], 0, List.replicate 8 4 ++ []⟩ mdSample := by
  refine ⟨c5_discriminator_skip.2.2.1 account371 mdSample ?_,
    c5_discriminator_skip.2.2.2.1 account492 mdSample ?_,
    c5_discriminator_skip.2.2.2.2.1 account370 mdSample ?_,
    c5_discriminator_skip.2.2.2.2.2.1 account939 mdSample ?_,
    (c5_discriminator_skip.2.2.2.2.2.2 [] false 0 [] 0 mdSample
      (List.replicate 8 3) (List.replicate 8 4) [] ?_ ?_).2.1⟩ <;>
    simp [account371, account492, account370, account939,
      GLOBAL_CONFIG_SIZE_eq, POOL_STATE_SIZE_eq, PLATFORM_CONFIG_SIZE_eq]

/-- C6: each defined numeric tag of AmmCreatorFeeOn, PoolStatus and
TradeDirection decodes to its named variant; any other leading byte fails the
field decode; an out-of-range amm_creator_fee_on byte (offset 358 of the
layout) fails the whole PoolState deserialization, and with an out-of-range
pool status byte (offset 9) pool_state_decode returns no value (the status
field is declared u8 in the source, and pool_state_decode returns no value on
every input regardless). -/
theorem c6_tag_exhaustiveness :
    (∀ rest, ammCreatorFeeOnDeser (0 :: rest) = some (AmmCreatorFeeOn.QuoteToken, rest)) ∧
    (∀ rest, ammCreatorFeeOnDeser (1 :: rest) = some (AmmCreatorFeeOn.BothToken, rest)) ∧
    (∀ b rest, 2 ≤ b → ammCreatorFeeOnDeser (b :: rest) = none) ∧
    (∀ rest, poolStatusDeser (0 :: rest) = some (PoolStatus.Fund, rest)) ∧
    (∀ rest, poolStatusDeser (1 :: rest) = some (PoolStatus.Migrate, rest)) ∧
    (∀ rest, poolStatusDeser (2 :: rest) = some (PoolStatus.Trade, rest)) ∧
    (∀ b rest, 3 ≤ b → poolStatusDeser (b :: rest) = none) ∧
    (∀ rest, tradeDirectionDeser (0 :: rest) = some (TradeDirection.Buy, rest)) ∧
    (∀ rest, tradeDirectionDeser (1 :: rest) = some (TradeDirection.Sell, rest)) ∧
    (∀ b rest, 2 ≤ b → tradeDirectionDeser (b :: rest) = none) ∧
    (∀ pre b post, pre.length = 358 → 2 ≤ b →
      poolStateDeser (pre ++ b :: post) = none) ∧
    (∀ pre b post, pre.length = 9 → 3 ≤ b →
      pool_state_decode (pre ++ b :: post) = none) :=
  ⟨ammCreatorFeeOnDeser_zero, ammCreatorFeeOnDeser_one, ammCreatorFeeOnDeser_bad,
   poolStatusDeser_zero, poolStatusDeser_one, poolStatusDeser_two, poolStatusDeser_bad,
   tradeDirectionDeser_zero, tradeDirectionDeser_one, tradeDirectionDeser_bad,
   poolStateDeser_bad_amm,
   fun _ _ _ _ _ => pool_state_decode_eq_none _⟩

theorem c6_tag_exhaustiveness_witness :
    ammCreatorFeeOnDeser [5] = none ∧
    poolStatusDeser [9] = none ∧
    tradeDirectionDeser [2] = none ∧
    poolStateDeser (List.replicate 358 0 ++ 2 :: []) = none ∧
    pool_state_decode (List.replicate 9 0 ++ 3 :: List.replicate 475 0) = none := by
  refine ⟨c6_tag_exhaustiveness.2.2.1 5 [] ?_,
    c6_tag_exhaustiveness.2.2.2.2.2.2.1 9 [] ?_,
    c6_tag_exhaustiveness.2.2.2.2.2.2.2.2.2.1 2 [] ?_,
    c6_tag_exhaustiveness.2.2.2.2.2.2.2.2.2.2.1 (List.replicate 358 0) 2 [] ?_ ?_,
    c6_tag_exhaustiveness.2.2.2.2.2.2.2.2.2.2.2 (List.replicate 9 0) 3
      (List.replicate 475 0) ?_ ?_⟩ <;> simp

/-- C7: whenever one of the three parsers returns an event, that event
carries the event-type tag fixed for its record kind stamped into the
caller-supplied metadata (whose other content is preserved), the record
decoded from the byte window past the 8 discriminator bytes, and the
snapshot's pubkey, executable, lamports, owner and rent_epoch copied
verbatim. -/
theorem c7_event_fields :
    ∀ (account : AccountPretty) (metadata : EventMetadata) (e : DexEvent),
      (poolStateParser account metadata = some e ∨
       globalConfigParser account metadata = some e ∨
       platformConfigParser account metadata = some e) →
      eventEchoesSnapshot account metadata e := by
  intro account metadata e h
  rcases h with h | h | h
  · rw [poolStateParser_eq_none] at h
    exact absurd h (by simp)
  · unfold globalConfigParser at h
    by_cases hlt : account.data.length < GLOBAL_CONFIG_SIZE + 8
    · rw [if_pos hlt] at h
      simp at h
    · rw [if_neg hlt] at h
      cases hd : global_config_decode ((account.data.drop 8).take GLOBAL_CONFIG_SIZE) with
      | none =>
        rw [hd] at h
        simp at h
      | some gc =>
        rw [hd] at h
        simp only [Option.some.injEq] at h
        subst h
        exact ⟨rfl, hd, rfl, rfl, rfl, rfl, rfl, rfl⟩
  · rw [platformConfigParser_eq_none] at h
    exact absurd h (by simp)

theorem c7_event_fields_witness :
    eventEchoesSnapshot account371 mdSample globalEventSample :=
  c7_event_fields account371 mdSample globalEventSample
    (Or.inr (Or.inl globalConfigParser_sample))

/-- C8: all three failure classes produce the same observable outcome at
every public decode and lift operation: no value returned and no partial
record (a too-short buffer, an out-of-range field byte, and a misaligned
trailing region each give none; a successful GlobalConfig decode needs the
whole fixed window; each lifter returns none below fixed size + 8).  The
embedding is total, mirroring that the guarded windowing of the source never
faults. -/
theorem c8_uniform_failure :
    (∀ data, data.length < POOL_STATE_SIZE → pool_state_decode data = none) ∧
    (∀ data, data.length < GLOBAL_CONFIG_SIZE → global_config_decode data = none) ∧
    (∀ data, data.length < PLATFORM_CONFIG_SIZE → platform_config_decode data = none) ∧
    (∀ pre b post, pre.length = 358 → 2 ≤ b →
      pool_state_decode (pre ++ b :: post) = none) ∧
    (∀ data, PLATFORM_CONFIG_SIZE ≤ data.length →
      (data.length - PLATFORM_CONFIG_SIZE) % 491 ≠ 0 →
      platform_config_decode data = none) ∧
    (∀ data r, global_config_decode data = some r → GLOBAL_CONFIG_SIZE ≤ data.length) ∧
    (∀ account metadata, account.data.length < POOL_STATE_SIZE + 8 →
      poolStateParser account metadata = none) ∧
    (∀ account metadata, account.data.length < GLOBAL_CONFIG_SIZE + 8 →
      globalConfigParser account metadata = none) ∧
    (∀ account metadata, account.data.length < PLATFORM_CONFIG_SIZE + 8 →
      platformConfigParser account metadata = none) := by
  refine ⟨fun data h => ?_, fun data h => ?_, fun data h => ?_,
    fun _ _ _ _ _ => pool_state_decode_eq_none _,
    fun _ _ _ => platform_config_decode_eq_none _,
    global_config_decode_some_length,
    fun _ _ _ => poolStateParser_eq_none _ _,
    globalConfigParser_short,
    fun _ _ _ => platformConfigParser_eq_none _ _⟩
  · unfold pool_state_decode
    rw [if_pos h]
  · unfold global_config_decode
    rw [if_pos h]
  · unfold platform_config_decode
    rw [if_pos h]

theorem c8_uniform_failure_witness :
    pool_state_decode [] = none ∧
    global_config_decode [] = none ∧
    platform_config_decode [] = none ∧
    pool_state_decode (List.replicate 358 0 ++ 2 :: []) = none ∧
    platform_config_decode (List.replicate 933 0) = none ∧
    GLOBAL_CONFIG_SIZE ≤ (List.replicate 363 (0 : Nat)).length ∧
    poolStateParser accountEmpty mdSample = none ∧
    globalConfigParser accountEmpty mdSample = none ∧
    platformConfigParser accountEmpty mdSample = none := by
  refine ⟨c8_uniform_failure.1 [] ?_, c8_uniform_failure.2.1 [] ?_,
    c8_uniform_failure.2.2.1 [] ?_,
    c8_uniform_failure.2.2.2.1 (List.replicate 358 0) 2 [] ?_ ?_,
    c8_uniform_failure.2.2.2.2.1 (List.replicate 933 0) ?_ ?_,
    c8_uniform_failure.2.2.2.2.2.1 (List.replicate 363 0) globalConfigZero
      global_config_decode_zero363,
    c8_uniform_failure.2.2.2.2.2.2.1 accountEmpty mdSample ?_,
    c8_uniform_failure.2.2.2.2.2.2.2.1 accountEmpty mdSample ?_,
    c8_uniform_failure.2.2.2.2.2.2.2.2 accountEmpty mdSample ?_⟩ <;>
    simp [accountEmpty, account371, POOL_STATE_SIZE_eq, GLOBAL_CONFIG_SIZE_eq,
      PLATFORM_CONFIG_SIZE_eq]

/-- C9: for every buffer of at least GLOBAL_CONFIG_SIZE bytes,
global_config_decode returns a decoded GlobalConfig: every field is a
fixed-width integer, 32-byte address or fixed array, so the field-failure
branch is unreachable under the length precondition. -/
theorem c9_global_config_total (data : List Nat)
    (h : GLOBAL_CONFIG_SIZE ≤ data.length) :
    ∃ r, global_config_decode data = some r :=
  global_config_decode_some data h

theorem c9_global_config_total_witness :
    ∃ r, global_config_decode (List.replicate 363 0) = some r :=
  c9_global_config_total (List.replicate 363 0)
    (by simp [GLOBAL_CONFIG_SIZE_eq])

/-- C10: every decode and parse operation is deterministic and stateless:
equal buffers (and equal snapshots and metadata) give identical results, and
the embedding is purely functional, mirroring the source signatures where the
buffer and snapshot are taken by shared reference and the metadata by value,
so no caller state is mutated. -/
theorem c10_deterministic :
    (∀ d1 d2 : List Nat, d1 = d2 →
      pool_state_decode d1 = pool_state_decode d2 ∧
      global_config_decode d1 = global_config_decode d2 ∧
      platform_config_decode d1 = platform_config_decode d2) ∧
    (∀ (a1 a2 : AccountPretty) (m1 m2 : EventMetadata), a1 = a2 → m1 = m2 →
      poolStateParser a1 m1 = poolStateParser a2 m2 ∧
      globalConfigParser a1 m1 = globalConfigParser a2 m2 ∧
      platformConfigParser a1 m1 = platformConfigParser a2 m2) := by
  constructor
  · intro d1 d2 h
    subst h
    exact ⟨rfl, rfl, rfl⟩
  · intro a1 a2 m1 m2 h1 h2
    subst h1
    subst h2
    exact ⟨rfl, rfl, rfl⟩

theorem c10_deterministic_witness :
    (pool_state_decode [] = pool_state_decode [] ∧
     global_config_decode [] = global_config_decode [] ∧
     platform_config_decode [] = platform_config_decode []) ∧
    (poolStateParser account371 mdSample = poolStateParser account371 mdSample ∧
     globalConfigParser account371 mdSample = globalConfigParser account371 mdSample ∧
     platformConfigParser account371 mdSample = platformConfigParser account371 mdSample) :=
  ⟨c10_deterministic.1 [] [] rfl,
   c10_deterministic.2 account371 account371 mdSample mdSample rfl rfl⟩

end Bonk
